import Mathlib

/-!
Shallow embedding of `src/tkfontawesome/__init__.py` (TkFontAwesome).

The module has three functions:
  * `_collect_svg_files` — lists the three bundled asset directories
    (`svgs/brands`, `svgs/regular`, `svgs/solid`) in that order and
    concatenates the listings;
  * `_get_icon_file` — scans the collected files and returns the first
    whose filename stem equals the requested name, raising an
    `Exception` with a fixed message otherwise;
  * `svg_to_image` — opens a source with `open(source)`, parses it with
    `lxml.etree.parse`, optionally overwrites the root `fill` attribute,
    serializes the tree to a byte buffer, builds a keyword-argument
    dictionary with conditional `scaletowidth` / `scaletoheight` /
    `scale` entries, and calls the external collaborator
    `tksvg.SvgImage(**kw)`;
  * `icon_to_image` — composes `_get_icon_file` and `svg_to_image`.

Python exceptions are modelled with `Except PyError`.  The filesystem is
modelled as an `AssetStore` whose three directory listings each either
yield a list of files or fail (as `Path.iterdir` does on a missing or
unreadable directory).  The external renderer `tksvg.SvgImage` is a
black box and is passed in as a function argument of type
`SvgImageConfig → Except PyError SvgImage`.
-/

set_option autoImplicit false

namespace TkFontAwesome

/-- The Python exception taxonomy relevant to this module:
`notFound` is the `Exception` raised by `_get_icon_file`; `fsError` an
`OSError` from `Path.iterdir`; `ioError` an `OSError` from `open`;
`typeError` the `TypeError` raised by `open` on a non-path argument;
`parseError` an `lxml` parse failure; `renderError` an error raised by
the external `tksvg.SvgImage` collaborator. -/
inductive PyError where
  | notFound (msg : String)
  | fsError (msg : String)
  | ioError (msg : String)
  | typeError (msg : String)
  | parseError (msg : String)
  | renderError (msg : String)
deriving DecidableEq, Repr

/-- An XML element tree as handled by `lxml.etree`: a tag, an ordered
attribute list (keys unique in well-formed XML; `attrib` behaves as an
ordered mapping), and child nodes. -/
inductive XmlTree where
  | elem (tag : String) (attrib : List (String × String)) (children : List XmlTree)

/-- The content of a file handed to the renderer: either a well-formed
XML document (which `lxml.etree.parse` yields as a tree) or malformed
bytes (on which the parser raises). -/
inductive FileContent where
  | svg (doc : XmlTree)
  | malformed (raw : String)

/-- One of the three fixed asset categories. -/
inductive Category where
  | brands
  | regular
  | solid
deriving DecidableEq, Repr

/-- A file in the bundled asset store: the category directory it lives
in, its filename stem (`Path.stem`), and its content.  Bundled assets
are packaged read-only files, so a file listed by `iterdir` is openable
and its content is part of its identity. -/
structure IconFile where
  category : Category
  stem : String
  content : FileContent

/-- The bundled asset store: the three category directory listings, in
the fixed order brands, regular, solid.  Each listing either succeeds
with a file list or fails with an `OSError` message, as `Path.iterdir`
does when the directory is missing or unreadable. -/
structure AssetStore where
  brands : Except String (List IconFile)
  regular : Except String (List IconFile)
  solid : Except String (List IconFile)

/-- Python's `Path.iterdir` consumed by `list.extend`: yields the directory
entries, or raises an `OSError` that surfaces as a `PyError`. -/
def iterdir (d : Except String (List IconFile)) : Except PyError (List IconFile) :=
  match d with
  | .ok fs => .ok fs
  | .error e => .error (.fsError e)

/-- Function `_collect_svg_files`: extend an accumulator with the listings of
`svgs/brands`, `svgs/regular`, `svgs/solid`, in that order; any listing
failure aborts the collection with that error. -/
def _collect_svg_files (store : AssetStore) : Except PyError (List IconFile) := do
  let b ← iterdir store.brands
  let r ← iterdir store.regular
  let s ← iterdir store.solid
  return b ++ r ++ s

/-- The message of the `Exception` raised by `_get_icon_file`:
`f"'{name}' is not a valid icon name. Check spelling and consult
https://fontawesome.com/v5.0/icons."`. -/
def notFoundMessage (name : String) : String :=
  "'" ++ name ++ "' is not a valid icon name. Check spelling and consult https://fontawesome.com/v5.0/icons."

/-- The `for file in files: if file.stem == name: return file` loop of
`_get_icon_file`, followed by the `raise`. -/
def findIconLoop (name : String) : List IconFile → Except PyError IconFile
  | [] => .error (.notFound (notFoundMessage name))
  | f :: fs => if f.stem = name then .ok f else findIconLoop name fs

/-- Function `_get_icon_file`: collect all svg files, return the first whose
stem equals `name`, otherwise raise. -/
def _get_icon_file (store : AssetStore) (name : String) : Except PyError IconFile := do
  let files ← _collect_svg_files store
  findIconLoop name files

/-- A source accepted by `svg_to_image`: either a filename/path (whose
`open` either yields the file's content or raises an `OSError`), or a
caller-supplied open file object already holding content. -/
inductive SvgSource where
  | path (openResult : Except String FileContent)
  | fileObj (content : FileContent)

/-- CPython's `open(source)`: succeeds on an openable path, raises
`OSError` on an unopenable one, and raises
`TypeError: expected str, bytes or os.PathLike object` when handed a
file object (a file object is none of str, bytes, os.PathLike, int). -/
def open_source : SvgSource → Except PyError FileContent
  | .path (.ok c) => .ok c
  | .path (.error e) => .error (.ioError e)
  | .fileObj _ => .error (.typeError "expected str, bytes or os.PathLike object")

/-- Parsing via `lxml.etree.parse` on the opened handle: yields the document tree
for well-formed content, raises a parse error otherwise. -/
def parseSvg : FileContent → Except PyError XmlTree
  | .svg doc => .ok doc
  | .malformed raw => .error (.parseError raw)

/-- Assignment `attrib[k] = v` on an `lxml` ordered attribute mapping: overwrite
the value in place when the key is present, append the pair when it is
absent. -/
def setAttr (attrs : List (String × String)) (k v : String) : List (String × String) :=
  if attrs.any (fun p => p.1 = k) then
    attrs.map (fun p => if p.1 = k then (k, v) else p)
  else
    attrs ++ [(k, v)]

/-- Attribute lookup on an ordered attribute mapping. -/
def getAttr (attrs : List (String × String)) (k : String) : Option String :=
  (attrs.find? (fun p => p.1 = k)).map (fun p => p.2)

/-- Assignment `root.attrib["fill"] = fill`: mutate only the root element's
attribute list; tag and children are untouched. -/
def XmlTree.setRootAttr : XmlTree → String → String → XmlTree
  | .elem t a cs, k, v => .elem t (setAttr a k v) cs

/-- Root tag of a document. -/
def XmlTree.tag : XmlTree → String
  | .elem t _ _ => t

/-- Root attribute list of a document. -/
def XmlTree.attrib : XmlTree → List (String × String)
  | .elem _ a _ => a

/-- Children of a document's root. -/
def XmlTree.children : XmlTree → List XmlTree
  | .elem _ _ cs => cs

/-- Serialization of an attribute list, ` k="v"` per pair. -/
def serializeAttrs : List (String × String) → String
  | [] => ""
  | (k, v) :: rest => " " ++ k ++ "=\x22" ++ v ++ "\x22" ++ serializeAttrs rest

mutual

/-- Serialization `tree.write(buffer)`: serialize the document tree to bytes. -/
def serializeTree : XmlTree → String
  | .elem t a cs =>
      "<" ++ t ++ serializeAttrs a ++ ">" ++ serializeForest cs ++ "</" ++ t ++ ">"

/-- Serialization of a list of sibling nodes, in order. -/
def serializeForest : List XmlTree → String
  | [] => ""
  | c :: cs => serializeTree c ++ serializeForest cs

end

/-- The keyword-argument dictionary `kw` built by `svg_to_image` and
passed to `tksvg.SvgImage(**kw)`: a `data` entry always, and
`scaletowidth` / `scaletoheight` / `scale` entries only when the
corresponding `if` guard fired (`none` models an absent key). -/
structure SvgImageConfig where
  data : String
  scaletowidth : Option Int
  scaletoheight : Option Int
  scale : Option Rat
deriving DecidableEq, Repr

/-- Python truthiness of an optional integer argument: `None` and `0`
are falsy, every other value is truthy. -/
def truthyOptInt : Option Int → Bool
  | none => false
  | some n => n != 0

/-- The opaque image handle produced by the external collaborator.  It
is modelled as carrying the configuration it was built from, which is
all this module observes about it. -/
structure SvgImage where
  config : SvgImageConfig

/-- The body of `svg_to_image` up to (and including) building `kw`:
open the source, parse it, overwrite the root `fill` attribute when
`fill is not None`, serialize, and assemble the keyword dictionary with
its three conditional entries (`if scale_to_width:`,
`if scale_to_height:`, `if scale != 1:`). -/
def svg_to_config (source : SvgSource) (fill : Option String)
    (scale_to_width scale_to_height : Option Int) (scale : Rat) :
    Except PyError SvgImageConfig := do
  let content ← open_source source
  let tree ← parseSvg content
  let tree := match fill with
    | some f => tree.setRootAttr "fill" f
    | none => tree
  let imgdata := serializeTree tree
  return { data := imgdata
           scaletowidth := if truthyOptInt scale_to_width then scale_to_width else none
           scaletoheight := if truthyOptInt scale_to_height then scale_to_height else none
           scale := if scale ≠ 1 then some scale else none }

/-- Function `svg_to_image`: build the configuration and delegate to the
external collaborator `tksvg.SvgImage(**kw)` (the `renderer`
argument), returning its result directly. -/
def svg_to_image (renderer : SvgImageConfig → Except PyError SvgImage)
    (source : SvgSource) (fill : Option String)
    (scale_to_width scale_to_height : Option Int) (scale : Rat) :
    Except PyError SvgImage := do
  let kw ← svg_to_config source fill scale_to_width scale_to_height scale
  renderer kw

/-- Function `icon_to_image`: `file = _get_icon_file(name)`, then
`img_data = svg_to_image(file, fill, scale_to_width, scale_to_height,
scale)`, then `return img_data`.  A file returned by the resolver is a
bundled asset listed by `iterdir`, so opening it succeeds and yields
its content. -/
def icon_to_image (renderer : SvgImageConfig → Except PyError SvgImage)
    (store : AssetStore) (name : String) (fill : Option String)
    (scale_to_width scale_to_height : Option Int) (scale : Rat) :
    Except PyError SvgImage := do
  let file ← _get_icon_file store name
  let img_data ← svg_to_image renderer (.path (.ok file.content)) fill
      scale_to_width scale_to_height scale
  return img_data

/-- Substring containment on character lists: `sub` occurs contiguously
inside `s`. -/
def substrOf (sub s : List Char) : Prop := ∃ l r, s = l ++ sub ++ r

/-! ### Helper lemmas -/

/-- The resolver's scan loop returns exactly the first list element
whose stem equals the name. -/
theorem findIconLoop_eq_find? (name : String) (l : List IconFile) :
    findIconLoop name l =
      match l.find? (fun g => g.stem == name) with
      | some f => .ok f
      | none => .error (.notFound (notFoundMessage name)) := by
  induction l with
  | nil => rfl
  | cons f fs ih =>
    by_cases h : f.stem = name
    · simp [findIconLoop, List.find?_cons, h]
    · simp [findIconLoop, List.find?_cons, h, ih]

/-- On a store whose three listings all succeed, the resolver runs the
scan loop on the concatenation brands ++ regular ++ solid. -/
theorem _get_icon_file_ok (b r s : List IconFile) (name : String) :
    _get_icon_file ⟨.ok b, .ok r, .ok s⟩ name = findIconLoop name (b ++ r ++ s) := rfl

/-- When no stem in the list matches, the scan loop raises. -/
theorem findIconLoop_none (name : String) (l : List IconFile)
    (h : ∀ f ∈ l, f.stem ≠ name) :
    findIconLoop name l = .error (.notFound (notFoundMessage name)) := by
  induction l with
  | nil => rfl
  | cons f fs ih =>
    rw [findIconLoop, if_neg (h f (List.Mem.head _))]
    exact ih fun g hg => h g (List.Mem.tail _ hg)

/-- A sample brands entry for concrete witnesses. -/
def brandsX : IconFile := ⟨.brands, "x", .svg (.elem "svg" [] [])⟩

/-- A sample regular entry with the same stem, for precedence
witnesses. -/
def regularX : IconFile := ⟨.regular, "x", .svg (.elem "svg" [("fill", "red")] [])⟩

/-! ### Claim theorems -/

/-- C1: for every icon name, the resolver returns the first file whose
filename stem equals the name exactly, scanning brands, then regular,
then solid; in particular a brands entry wins over a regular entry with
the same stem. -/
theorem resolve_returns_first_match (b r s : List IconFile) (name : String) :
    (∀ f : IconFile,
        _get_icon_file ⟨.ok b, .ok r, .ok s⟩ name = .ok f ↔
          (b ++ r ++ s).find? (fun g => g.stem == name) = some f)
    ∧ ∀ fb ∈ b, fb.stem = name →
        ∃ f ∈ b, f.stem = name ∧
          _get_icon_file ⟨.ok b, .ok r, .ok s⟩ name = .ok f := by
  constructor
  · intro f
    rw [_get_icon_file_ok, findIconLoop_eq_find?]
    cases hf : (b ++ r ++ s).find? (fun g => g.stem == name) <;> simp
  · intro fb hmem hstem
    have hsome : (b.find? (fun g => g.stem == name)).isSome := by
      rw [List.find?_isSome]
      exact ⟨fb, hmem, by simp [hstem]⟩
    obtain ⟨f, hf⟩ := Option.isSome_iff_exists.mp hsome
    have hfst : (b ++ r ++ s).find? (fun g => g.stem == name) = some f := by
      rw [List.find?_append, List.find?_append, hf]
      rfl
    refine ⟨f, List.mem_of_find?_eq_some hf, by simpa using List.find?_some hf, ?_⟩
    rw [_get_icon_file_ok, findIconLoop_eq_find?, hfst]

/-- Witness for C1 at a concrete store where the stem `x` is present in
both brands and regular: the brands entry is returned. -/
theorem resolve_returns_first_match_witness :
    ∃ f ∈ [brandsX], f.stem = "x" ∧
      _get_icon_file ⟨.ok [brandsX], .ok [regularX], .ok []⟩ "x" = .ok f :=
  (resolve_returns_first_match [brandsX] [regularX] [] "x").2 brandsX
    (List.Mem.head _) rfl

/-- C2: for a name matching no stem in any of the three categories, the
resolver raises (returns no file), and the raised message contains the
offending name and the spelling guidance pointing at the public icon
registry. -/
theorem resolve_unknown_name_raises (b r s : List IconFile) (name : String)
    (h : ∀ f ∈ b ++ r ++ s, f.stem ≠ name) :
    _get_icon_file ⟨.ok b, .ok r, .ok s⟩ name
        = .error (.notFound (notFoundMessage name))
    ∧ (∀ f, _get_icon_file ⟨.ok b, .ok r, .ok s⟩ name ≠ .ok f)
    ∧ substrOf name.data (notFoundMessage name).data
    ∧ substrOf
        "Check spelling and consult https://fontawesome.com/v5.0/icons.".data
        (notFoundMessage name).data := by
  have herr := findIconLoop_none name (b ++ r ++ s) h
  have hrun := _get_icon_file_ok b r s name
  refine ⟨hrun.trans herr, ?_, ?_, ?_⟩
  · intro f hf
    rw [hrun, herr] at hf
    exact Except.noConfusion hf
  · refine ⟨"'".data,
      "' is not a valid icon name. Check spelling and consult https://fontawesome.com/v5.0/icons.".data, ?_⟩
    rw [notFoundMessage, String.data_append, String.data_append]
  · refine ⟨("'" ++ name ++ "' is not a valid icon name. ").data, [], ?_⟩
    have htail : ("' is not a valid icon name. Check spelling and consult https://fontawesome.com/v5.0/icons." : String)
        = "' is not a valid icon name. "
          ++ "Check spelling and consult https://fontawesome.com/v5.0/icons." := rfl
    rw [notFoundMessage, htail]
    simp [String.data_append, List.append_assoc]

/-- Witness for C2 at a concrete store and a concrete unknown name. -/
theorem resolve_unknown_name_raises_witness :
    _get_icon_file ⟨.ok [brandsX], .ok [], .ok []⟩ "missing"
      = .error (.notFound (notFoundMessage "missing")) :=
  (resolve_unknown_name_raises [brandsX] [] [] "missing"
    (by
      intro f hf
      simp at hf
      subst hf
      decide)).1

/-- Overwriting pass of `setAttr`: looking up `k` after mapping every
`k`-keyed pair to `(k, v)` yields `v` exactly when some pair had key
`k`. -/
theorem getAttr_map_overwrite (a : List (String × String)) (k v : String) :
    getAttr (a.map (fun p => if p.1 = k then (k, v) else p)) k
      = if a.any (fun p => p.1 = k) then some v else none := by
  induction a with
  | nil => rfl
  | cons p ps ih =>
    rw [List.map_cons, List.any_cons]
    by_cases hp : p.1 = k
    · rw [if_pos hp]
      unfold getAttr
      rw [List.find?_cons_of_pos _ (by simp)]
      simp [hp]
    · rw [if_neg hp]
      unfold getAttr
      rw [List.find?_cons_of_neg _ (by simp [hp])]
      unfold getAttr at ih
      rw [ih]
      rw [decide_eq_false hp, Bool.false_or]

/-- Looking up a key other than `k` is unaffected by the overwriting
pass of `setAttr`. -/
theorem getAttr_map_overwrite_ne (a : List (String × String)) (k v k' : String)
    (hk : k' ≠ k) :
    getAttr (a.map (fun p => if p.1 = k then (k, v) else p)) k' = getAttr a k' := by
  induction a with
  | nil => rfl
  | cons p ps ih =>
    rw [List.map_cons]
    by_cases hp : p.1 = k
    · have hp' : ¬p.1 = k' := fun h => hk (h ▸ hp ▸ rfl)
      rw [if_pos hp]
      unfold getAttr
      rw [List.find?_cons_of_neg _ (by simp [Ne.symm hk]),
        List.find?_cons_of_neg _ (by simp [hp'])]
      unfold getAttr at ih
      exact ih
    · rw [if_neg hp]
      by_cases hq : p.1 = k'
      · unfold getAttr
        rw [List.find?_cons_of_pos _ (by simp [hq]),
          List.find?_cons_of_pos _ (by simp [hq])]
      · unfold getAttr
        rw [List.find?_cons_of_neg _ (by simp [hq]),
          List.find?_cons_of_neg _ (by simp [hq])]
        unfold getAttr at ih
        exact ih

/-- After `setAttr a k v`, looking up `k` yields `v`: the value is
overwritten when present and appended when absent. -/
theorem getAttr_setAttr_self (a : List (String × String)) (k v : String) :
    getAttr (setAttr a k v) k = some v := by
  unfold setAttr
  by_cases h : a.any (fun p => p.1 = k) = true
  · rw [if_pos h, getAttr_map_overwrite, if_pos h]
  · rw [if_neg h]
    unfold getAttr
    rw [List.find?_append]
    have hnone : a.find? (fun p => decide (p.1 = k)) = none := by
      rw [List.find?_eq_none]
      intro x hx
      simp only [decide_eq_true_eq]
      intro hxk
      exact h (List.any_eq_true.mpr ⟨x, hx, by simp [hxk]⟩)
    rw [hnone]
    simp

/-- Updating with `setAttr a k v` leaves every other key's lookup unchanged. -/
theorem getAttr_setAttr_ne (a : List (String × String)) (k v k' : String)
    (hk : k' ≠ k) :
    getAttr (setAttr a k v) k' = getAttr a k' := by
  unfold setAttr
  by_cases h : a.any (fun p => p.1 = k) = true
  · rw [if_pos h, getAttr_map_overwrite_ne a k v k' hk]
  · rw [if_neg h]
    unfold getAttr
    rw [List.find?_append]
    have hsingle : List.find? (fun p => decide (p.1 = k')) [(k, v)] = none := by
      simp [List.find?_cons, Ne.symm hk]
    rw [hsingle]
    simp

/-- C3 counterexample: `scale_to_width = 0` and `scale_to_height = 0`
are non-`None`, yet the configuration built by the renderer carries
neither key, because the code tests Python truthiness (`if
scale_to_width:`), not `is not None`. -/
theorem scaletowidth_zero_omitted :
    ∃ c, svg_to_config (.path (.ok (.svg (.elem "svg" [] [])))) none
        (some 0) (some 0) 1 = .ok c
      ∧ c.scaletowidth = none ∧ c.scaletoheight = none :=
  ⟨_, rfl, rfl, rfl⟩

/-- C3 (amended): the configuration contains the `scaletowidth`
(resp. `scaletoheight`) key, with the given value, exactly when the
corresponding argument is truthy — non-`None` and non-zero; a supplied
value of `0` is omitted. -/
theorem scale_dims_iff_truthy (t : String) (a : List (String × String))
    (cs : List XmlTree) (fill : Option String) (stw sth : Option Int) (sc : Rat) :
    ∃ c, svg_to_config (.path (.ok (.svg (.elem t a cs)))) fill stw sth sc = .ok c
      ∧ c.scaletowidth = (if truthyOptInt stw then stw else none)
      ∧ c.scaletoheight = (if truthyOptInt sth then sth else none) := by
  cases fill <;> exact ⟨_, rfl, rfl, rfl⟩

/-- C4: a well-formed vector document supplied as an open file object
(not a path) makes the renderer fail: `open(source)` raises `TypeError`
on a non-path argument, so no image is ever produced, contradicting the
function's own docstring (`source (Union[str, FileObj])`). -/
theorem file_object_source_raises_type_error :
    svg_to_config (.fileObj (.svg (.elem "svg" [] []))) none none none 1
      = .error (.typeError "expected str, bytes or os.PathLike object")
    ∧ ∀ renderer,
        svg_to_image renderer (.fileObj (.svg (.elem "svg" [] []))) none none none 1
          = .error (.typeError "expected str, bytes or os.PathLike object") :=
  ⟨rfl, fun _ => rfl⟩

/-- C5: rendering with `fill = v` serializes a tree whose root `fill`
attribute equals `v` (set if absent, overwritten if present), those
exact serialized bytes are the `data` entry of the configuration handed
to the collaborator, and nothing else — children, tag, or any other
root attribute — changes. -/
theorem fill_override (t : String) (a : List (String × String)) (cs : List XmlTree)
    (v : String) (stw sth : Option Int) (sc : Rat) :
    ∃ c, svg_to_config (.path (.ok (.svg (.elem t a cs)))) (some v) stw sth sc = .ok c
      ∧ c.data = serializeTree ((XmlTree.elem t a cs).setRootAttr "fill" v)
      ∧ (XmlTree.elem t a cs).setRootAttr "fill" v = .elem t (setAttr a "fill" v) cs
      ∧ getAttr (setAttr a "fill" v) "fill" = some v
      ∧ (∀ k, k ≠ "fill" → getAttr (setAttr a "fill" v) k = getAttr a k)
      ∧ ∀ renderer,
          svg_to_image renderer (.path (.ok (.svg (.elem t a cs)))) (some v) stw sth sc
            = renderer c :=
  ⟨_, rfl, rfl, rfl, getAttr_setAttr_self a "fill" v,
    fun k hk => getAttr_setAttr_ne a "fill" v k hk, fun _ => rfl⟩

/-- Witness for C5 at a concrete document whose root already carries a
fill attribute: the fill is overwritten and another key is untouched. -/
theorem fill_override_witness :
    getAttr (setAttr [("fill", "red")] "fill" "#112233") "fill" = some "#112233"
      ∧ getAttr (setAttr [("fill", "red")] "fill" "#112233") "width"
          = getAttr [("fill", "red")] "width" := by
  obtain ⟨c, _, _, _, h4, h5, _⟩ :=
    fill_override "svg" [("fill", "red")] [] "#112233" none none 1
  exact ⟨h4, h5 "width" (by decide)⟩

/-- C6: rendering with `fill = None` serializes the parsed tree
untouched — the `data` bytes handed to the collaborator are the
serialization of the original document, so an existing root fill value
is preserved and no fill attribute is added. -/
theorem no_fill_leaves_document_unchanged (t : String)
    (a : List (String × String)) (cs : List XmlTree)
    (stw sth : Option Int) (sc : Rat) :
    ∃ c, svg_to_config (.path (.ok (.svg (.elem t a cs)))) none stw sth sc = .ok c
      ∧ c.data = serializeTree (.elem t a cs)
      ∧ ∀ renderer,
          svg_to_image renderer (.path (.ok (.svg (.elem t a cs)))) none stw sth sc
            = renderer c :=
  ⟨_, rfl, rfl, fun _ => rfl⟩

/-- C7: the configuration contains no `scale` key when `scale = 1` and
contains `scale` with the given value whenever `scale ≠ 1`. -/
theorem scale_key_iff_nondefault (t : String) (a : List (String × String))
    (cs : List XmlTree) (fill : Option String) (stw sth : Option Int) (sc : Rat) :
    ∃ c, svg_to_config (.path (.ok (.svg (.elem t a cs)))) fill stw sth sc = .ok c
      ∧ (sc = 1 → c.scale = none)
      ∧ (sc ≠ 1 → c.scale = some sc) := by
  cases fill <;> exact ⟨_, rfl, fun h => by simp [h], fun h => by simp [h]⟩

/-- Witness for C7 at `scale = 2`: the key is present with value 2. -/
theorem scale_key_iff_nondefault_witness :
    ∃ c, svg_to_config (.path (.ok (.svg (.elem "svg" [] [])))) none none none 2
        = .ok c ∧ c.scale = some 2 := by
  obtain ⟨c, h1, _, h3⟩ :=
    scale_key_iff_nondefault "svg" [] [] none none none 2
  exact ⟨c, h1, h3 (by norm_num)⟩

/-- Spec-side Icon Lookup, from the words of the spec:
`render(resolve(name), fill, scale_to_width, scale_to_height, scale)`;
pure composition, no additional logic, with resolver and renderer
errors propagated unchanged. -/
def icon_lookup_spec (renderer : SvgImageConfig → Except PyError SvgImage)
    (store : AssetStore) (name : String) (fill : Option String)
    (scale_to_width scale_to_height : Option Int) (scale : Rat) :
    Except PyError SvgImage :=
  match _get_icon_file store name with
  | .error e => .error e
  | .ok f => svg_to_image renderer (.path (.ok f.content)) fill
      scale_to_width scale_to_height scale

/-- Unfolding: `icon_to_image` is the bind of the resolver into the renderer. -/
theorem icon_to_image_eq_bind (renderer : SvgImageConfig → Except PyError SvgImage)
    (store : AssetStore) (name : String) (fill : Option String)
    (stw sth : Option Int) (sc : Rat) :
    icon_to_image renderer store name fill stw sth sc
      = (_get_icon_file store name).bind
          (fun file => svg_to_image renderer (.path (.ok file.content)) fill stw sth sc) := by
  unfold icon_to_image
  cases _get_icon_file store name with
  | error e => rfl
  | ok f =>
    show (svg_to_image renderer (.path (.ok f.content)) fill stw sth sc).bind pure
        = svg_to_image renderer (.path (.ok f.content)) fill stw sth sc
    cases svg_to_image renderer (.path (.ok f.content)) fill stw sth sc <;> rfl

/-- C8: the top-level lookup is exactly the composition of the resolver
and the renderer — it equals the spec-side composition, and it
propagates resolver errors and renderer errors unchanged. -/
theorem icon_composes_resolver_and_renderer
    (renderer : SvgImageConfig → Except PyError SvgImage) (store : AssetStore)
    (name : String) (fill : Option String) (stw sth : Option Int) (sc : Rat) :
    icon_to_image renderer store name fill stw sth sc
        = icon_lookup_spec renderer store name fill stw sth sc
    ∧ (∀ e, _get_icon_file store name = .error e →
        icon_to_image renderer store name fill stw sth sc = .error e)
    ∧ (∀ f, _get_icon_file store name = .ok f →
        icon_to_image renderer store name fill stw sth sc
          = svg_to_image renderer (.path (.ok f.content)) fill stw sth sc)
    ∧ (∀ f e, _get_icon_file store name = .ok f →
        svg_to_image renderer (.path (.ok f.content)) fill stw sth sc = .error e →
        icon_to_image renderer store name fill stw sth sc = .error e) := by
  have hbody := icon_to_image_eq_bind renderer store name fill stw sth sc
  refine ⟨?_, ?_, ?_, ?_⟩
  · rw [hbody]
    unfold icon_lookup_spec
    cases _get_icon_file store name <;> rfl
  · intro e he
    rw [hbody, he]
    rfl
  · intro f hf
    rw [hbody, hf]
    rfl
  · intro f e hf hr
    rw [hbody, hf]
    exact hr

/-- Witness for C8: on an empty store, the resolver's not-found error
surfaces unchanged from the top-level lookup. -/
theorem icon_composes_resolver_and_renderer_witness :
    icon_to_image (fun c => .ok ⟨c⟩) ⟨.ok [], .ok [], .ok []⟩ "missing"
        none none none 1
      = .error (.notFound (notFoundMessage "missing")) :=
  (icon_composes_resolver_and_renderer (fun c => .ok ⟨c⟩)
    ⟨.ok [], .ok [], .ok []⟩ "missing" none none none 1).2.1 _ rfl

/-- Observable steps of a call, for the temporal claim: opening a
source file, parsing it, and invoking the external renderer. -/
inductive Event where
  | fileOpen
  | parseDoc
  | renderCall
deriving DecidableEq, Repr

/-- Event-instrumented `svg_to_image`: the same control flow as
`svg_to_image`, additionally recording which steps were reached —
`open(source)` is attempted first, `etree.parse` only after a
successful open, and the collaborator call only after a successful
parse. -/
def svg_to_image_traced (renderer : SvgImageConfig → Except PyError SvgImage)
    (source : SvgSource) (fill : Option String)
    (scale_to_width scale_to_height : Option Int) (scale : Rat) :
    Except PyError SvgImage × List Event :=
  match open_source source with
  | .error e => (.error e, [.fileOpen])
  | .ok content =>
    match parseSvg content with
    | .error e => (.error e, [.fileOpen, .parseDoc])
    | .ok tree =>
      let tree := match fill with
        | some f => tree.setRootAttr "fill" f
        | none => tree
      let kw : SvgImageConfig :=
        { data := serializeTree tree
          scaletowidth := if truthyOptInt scale_to_width then scale_to_width else none
          scaletoheight := if truthyOptInt scale_to_height then scale_to_height else none
          scale := if scale ≠ 1 then some scale else none }
      (renderer kw, [.fileOpen, .parseDoc, .renderCall])

/-- Event-instrumented `icon_to_image`: resolve first; only a
successful resolution proceeds to the renderer. -/
def icon_to_image_traced (renderer : SvgImageConfig → Except PyError SvgImage)
    (store : AssetStore) (name : String) (fill : Option String)
    (scale_to_width scale_to_height : Option Int) (scale : Rat) :
    Except PyError SvgImage × List Event :=
  match _get_icon_file store name with
  | .error e => (.error e, [])
  | .ok file => svg_to_image_traced renderer (.path (.ok file.content)) fill
      scale_to_width scale_to_height scale

/-- The instrumented pipeline computes the same result as the plain
one. -/
theorem icon_to_image_traced_fst (renderer : SvgImageConfig → Except PyError SvgImage)
    (store : AssetStore) (name : String) (fill : Option String)
    (stw sth : Option Int) (sc : Rat) :
    (icon_to_image_traced renderer store name fill stw sth sc).1
      = icon_to_image renderer store name fill stw sth sc := by
  rw [icon_to_image_eq_bind]
  unfold icon_to_image_traced
  cases _get_icon_file store name with
  | error e => rfl
  | ok file =>
    show (svg_to_image_traced renderer (.path (.ok file.content)) fill stw sth sc).1
      = svg_to_image renderer (.path (.ok file.content)) fill stw sth sc
    unfold svg_to_image_traced svg_to_image svg_to_config open_source
    cases file.content with
    | svg doc => cases fill <;> rfl
    | malformed raw => rfl

/-- C9: when the name matches no bundled asset, the lookup raises the
not-found error and its trace is empty — in particular no file-open
and no parse step is ever reached. -/
theorem not_found_raised_before_any_open (b r s : List IconFile) (name : String)
    (h : ∀ f ∈ b ++ r ++ s, f.stem ≠ name)
    (renderer : SvgImageConfig → Except PyError SvgImage) (fill : Option String)
    (stw sth : Option Int) (sc : Rat) :
    icon_to_image_traced renderer ⟨.ok b, .ok r, .ok s⟩ name fill stw sth sc
        = (.error (.notFound (notFoundMessage name)), [])
    ∧ Event.fileOpen ∉
        (icon_to_image_traced renderer ⟨.ok b, .ok r, .ok s⟩ name fill stw sth sc).2
    ∧ Event.parseDoc ∉
        (icon_to_image_traced renderer ⟨.ok b, .ok r, .ok s⟩ name fill stw sth sc).2 := by
  have herr : _get_icon_file ⟨.ok b, .ok r, .ok s⟩ name
      = .error (.notFound (notFoundMessage name)) :=
    (_get_icon_file_ok b r s name).trans (findIconLoop_none name _ h)
  have heq : icon_to_image_traced renderer ⟨.ok b, .ok r, .ok s⟩ name fill stw sth sc
      = (.error (.notFound (notFoundMessage name)), []) := by
    unfold icon_to_image_traced
    rw [herr]
  refine ⟨heq, ?_, ?_⟩ <;> rw [heq] <;> simp

/-- Witness for C9 at a concrete store and unknown name. -/
theorem not_found_raised_before_any_open_witness :
    icon_to_image_traced (fun c => .ok ⟨c⟩) ⟨.ok [brandsX], .ok [], .ok []⟩
        "missing" none none none 1
      = (.error (.notFound (notFoundMessage "missing")), []) :=
  (not_found_raised_before_any_open [brandsX] [] [] "missing"
    (by
      intro f hf
      simp at hf
      subst hf
      decide)
    (fun c => .ok ⟨c⟩) none none none 1).1

/-- C10: the resolver enumerates all three category directories before
matching: a failing listing of any one directory aborts every lookup
with that filesystem error (never the not-found error), even when an
earlier-scanned directory contains a file with the requested stem. -/
theorem missing_category_dir_fails_enumeration (e : String) (name : String) :
    (∀ rdir sdir, _get_icon_file ⟨.error e, rdir, sdir⟩ name = .error (.fsError e))
    ∧ (∀ b sdir, _get_icon_file ⟨.ok b, .error e, sdir⟩ name = .error (.fsError e))
    ∧ (∀ b r, _get_icon_file ⟨.ok b, .ok r, .error e⟩ name = .error (.fsError e))
    ∧ ∀ b fb sdir, fb ∈ b → fb.stem = name →
        _get_icon_file ⟨.ok b, .error e, sdir⟩ name = .error (.fsError e)
        ∧ ∀ m, _get_icon_file ⟨.ok b, .error e, sdir⟩ name ≠ .error (.notFound m) := by
  refine ⟨fun _ _ => rfl, fun _ _ => rfl, fun _ _ => rfl,
    fun b fb sdir _ _ => ⟨rfl, fun m heq => ?_⟩⟩
  rw [show _get_icon_file ⟨.ok b, .error e, sdir⟩ name = .error (.fsError e) from rfl]
    at heq
  injection heq with h
  exact PyError.noConfusion h

/-- Witness for C10: with brands containing a matching stem but the
regular directory unreadable, the lookup fails with the filesystem
error. -/
theorem missing_category_dir_fails_enumeration_witness :
    _get_icon_file ⟨.ok [brandsX], .error "No such file or directory", .ok []⟩ "x"
      = .error (.fsError "No such file or directory") :=
  ((missing_category_dir_fails_enumeration "No such file or directory" "x").2.2.2
    [brandsX] brandsX (.ok []) (List.Mem.head _) rfl).1

end TkFontAwesome
